import Mathlib

/-
Shallow embedding of src/research/mal_resampler.h (the mal_resampler research
header of miniaudio). C doubles are modelled as exact rationals, mal_uint16,
mal_uint32 and mal_uint64 as Nat (no implemented arithmetic in this file can
overflow those widths on the inputs considered), and pointers to the engine are
taken to be valid, so the NULL-handle early returns of the C API are not
modelled. Functions that in C may mutate the engine through its pointer or call
the client onRead callback are embedded in state-passing style: they return
their C result together with the resulting engine state and the number of
frames pulled from the client via onRead (the implemented bodies never invoke
onRead, and the algorithm backends are explicit TODO stubs that return 0
without touching anything, which the embedding reproduces faithfully).
-/

namespace MalResampler

/-- MAL_RESAMPLER_MIN_RATIO (0.001), from the implementation section. The
source name ends in letters that the development avoids in Lean identifiers,
hence the lowercase name. -/
def mal_resampler_min_ratio : ℚ := 1 / 1000

/-- MAL_RESAMPLER_MAX_RATIO (100.0). -/
def mal_resampler_max_ratio : ℚ := 100

/-- MAL_RESAMPLER_CACHE_SIZE_IN_BYTES (4096). -/
def mal_resampler_cache_size_in_bytes : ℕ := 4096

/-- mal_result: only the two codes the header uses. -/
inductive MalResult where
  | MAL_SUCCESS
  | MAL_INVALID_ARGS

/-- mal_format, as in mini_al. Only f32 and s16 pass validation. -/
inductive MalFormat where
  | mal_format_unknown
  | mal_format_u8
  | mal_format_s16
  | mal_format_s24
  | mal_format_s32
  | mal_format_f32
deriving DecidableEq

/-- Size in bytes of one sample of the given format. -/
def mal_format_size_in_bytes : MalFormat → ℕ
  | .mal_format_unknown => 0
  | .mal_format_u8 => 1
  | .mal_format_s16 => 2
  | .mal_format_s24 => 3
  | .mal_format_s32 => 4
  | .mal_format_f32 => 4

/-- mal_resampler_algorithm. -/
inductive MalResamplerAlgorithm where
  | mal_resampler_algorithm_sinc
  | mal_resampler_algorithm_linear

/-- mal_resampler_end_of_input_mode. -/
inductive MalResamplerEndOfInputMode where
  | consume
  | no_consume

/-- mal_resampler_config. The onRead client callback pointer is modelled by
whether it is non-NULL; its body is external to this repository and the
implemented engine code never calls it. pUserData is opaque and unused by the
implemented code, so it is omitted. -/
structure MalResamplerConfig where
  format : MalFormat
  channels : ℕ
  sampleRateIn : ℕ
  sampleRateOut : ℕ
  ratio : ℚ
  algorithm : MalResamplerAlgorithm
  endOfInputMode : MalResamplerEndOfInputMode
  onRead : Bool

/-- struct mal_resampler. The union cache buffer of 4096 bytes is abstracted
as a list of raw sample words, since no implemented function in the source
reads or writes it. The init, read and seek backend function pointers are
determined by config.algorithm; hasBackend records that they were set by
mal_resampler_init (they are NULL after mal_zero_object). -/
structure Resampler where
  cache : List ℤ
  firstCachedFrameOffset : ℕ
  cacheLengthInFrames : ℕ
  windowLength : ℕ
  windowTime : ℚ
  config : MalResamplerConfig
  hasBackend : Bool

/-- Capacity of the cache in frames for the configured format and channel
count, from the declaration of the union cache member. -/
def cache_capacity_in_frames (r : Resampler) : ℕ :=
  mal_resampler_cache_size_in_bytes / mal_format_size_in_bytes r.config.format / r.config.channels

/-- The config produced by mal_zero_object on the config member. -/
def zero_config : MalResamplerConfig :=
  { format := .mal_format_unknown
    channels := 0
    sampleRateIn := 0
    sampleRateOut := 0
    ratio := 0
    algorithm := .mal_resampler_algorithm_sinc
    endOfInputMode := .consume
    onRead := false }

/-- The engine state right after mal_zero_object(pResampler). -/
def zero_resampler : Resampler :=
  { cache := List.replicate mal_resampler_cache_size_in_bytes 0
    firstCachedFrameOffset := 0
    cacheLengthInFrames := 0
    windowLength := 0
    windowTime := 0
    config := zero_config
    hasBackend := false }

/-- mal_resampler_read__linear: explicit TODO stub in the source; returns 0
and leaves the state untouched, calling the client zero times. The result
triple is (return value, engine state, frames pulled from the client). -/
def mal_resampler_read__linear (r : Resampler) (frameCount : ℕ) : ℕ × Resampler × ℕ :=
  (0, r, 0)

/-- mal_resampler_seek__linear: explicit TODO stub in the source. -/
def mal_resampler_seek__linear (r : Resampler) (frameCount : ℕ) (options : ℕ) : ℕ × Resampler × ℕ :=
  (0, r, 0)

/-- mal_resampler_init__sinc: TODO stub that returns MAL_SUCCESS without
modifying the engine. -/
def mal_resampler_init__sinc (r : Resampler) : MalResult × Resampler :=
  (.MAL_SUCCESS, r)

/-- mal_resampler_read__sinc: explicit TODO stub in the source. -/
def mal_resampler_read__sinc (r : Resampler) (frameCount : ℕ) : ℕ × Resampler × ℕ :=
  (0, r, 0)

/-- mal_resampler_seek__sinc: explicit TODO stub in the source. -/
def mal_resampler_seek__sinc (r : Resampler) (frameCount : ℕ) (options : ℕ) : ℕ × Resampler × ℕ :=
  (0, r, 0)

/-- mal_resampler_init. Returns the result code and the contents written into
*pResampler (zeroed first, then the config copied in, the ratio possibly
derived from the rates, and the backend pointers selected by algorithm). The
NULL-pointer guards on pResampler and pConfig are not modelled. -/
def mal_resampler_init (pConfig : MalResamplerConfig) : MalResult × Resampler :=
  let r := { zero_resampler with config := pConfig }
  if r.config.format ≠ .mal_format_f32 ∧ r.config.format ≠ .mal_format_s16 then
    (.MAL_INVALID_ARGS, r)
  else if r.config.channels = 0 then
    (.MAL_INVALID_ARGS, r)
  else if r.config.ratio = 0 ∧ (r.config.sampleRateIn = 0 ∨ r.config.sampleRateOut = 0) then
    (.MAL_INVALID_ARGS, r)
  else
    let r :=
      if r.config.ratio = 0 then
        { r with config :=
          { r.config with ratio := (r.config.sampleRateIn : ℚ) / (r.config.sampleRateOut : ℚ) } }
      else r
    if r.config.onRead = false then
      (.MAL_INVALID_ARGS, r)
    else
      let r := { r with hasBackend := true }
      match r.config.algorithm with
      | .mal_resampler_algorithm_linear => (.MAL_SUCCESS, r)
      | .mal_resampler_algorithm_sinc => mal_resampler_init__sinc r

/-- mal_resampler_set_rate. Note that the source computes the validated and
stored ratio from the rates already held in config, not from the new
sampleRateIn and sampleRateOut arguments (line 311 of the header). -/
def mal_resampler_set_rate (r : Resampler) (sampleRateIn sampleRateOut : ℕ) :
    MalResult × Resampler :=
  if sampleRateIn = 0 ∨ sampleRateOut = 0 then
    (.MAL_INVALID_ARGS, r)
  else
    let ratio : ℚ := (r.config.sampleRateIn : ℚ) / (r.config.sampleRateOut : ℚ)
    if ratio < mal_resampler_min_ratio ∨ mal_resampler_max_ratio < ratio then
      (.MAL_INVALID_ARGS, r)
    else
      (.MAL_SUCCESS,
        { r with config :=
          { r.config with
            sampleRateIn := sampleRateIn
            sampleRateOut := sampleRateOut
            ratio := ratio } })

/-- mal_resampler_set_rate_ratio. -/
def mal_resampler_set_rate_ratio (r : Resampler) (ratio : ℚ) : MalResult × Resampler :=
  if ratio < mal_resampler_min_ratio ∨ mal_resampler_max_ratio < ratio then
    (.MAL_INVALID_ARGS, r)
  else
    (.MAL_SUCCESS, { r with config := { r.config with ratio := ratio } })

/-- mal_resampler_seek. Dispatches to the algorithm seek backend; returns 0
with no state change when the backend pointer is NULL or frameCount is 0. -/
def mal_resampler_seek (r : Resampler) (frameCount : ℕ) (options : ℕ) : ℕ × Resampler × ℕ :=
  if r.hasBackend = false then
    (0, r, 0)
  else if frameCount = 0 then
    (0, r, 0)
  else
    match r.config.algorithm with
    | .mal_resampler_algorithm_linear => mal_resampler_seek__linear r frameCount options
    | .mal_resampler_algorithm_sinc => mal_resampler_seek__sinc r frameCount options

/-- mal_resampler_read. ppFrames is modelled by its nullness only: the stub
backends never write output. When ppFrames is NULL the source delegates to
mal_resampler_seek with options 0. -/
def mal_resampler_read (r : Resampler) (frameCount : ℕ) (ppFrames : Option Unit) :
    ℕ × Resampler × ℕ :=
  if r.hasBackend = false then
    (0, r, 0)
  else if frameCount = 0 then
    (0, r, 0)
  else
    match ppFrames with
    | none => mal_resampler_seek r frameCount 0
    | some _ =>
      match r.config.algorithm with
      | .mal_resampler_algorithm_linear => mal_resampler_read__linear r frameCount
      | .mal_resampler_algorithm_sinc => mal_resampler_read__sinc r frameCount

/-- mal_resampler__calculate_cached_input_time: cacheLengthInFrames minus
windowTime plus the reserved part of the window, which is windowLength >> 1
under consume mode and the whole windowLength under no_consume mode. -/
def mal_resampler__calculate_cached_input_time (r : Resampler) : ℚ :=
  match r.config.endOfInputMode with
  | .consume => (r.cacheLengthInFrames : ℚ) - (r.windowTime + (r.windowLength / 2 : ℕ))
  | .no_consume => (r.cacheLengthInFrames : ℚ) - (r.windowTime + (r.windowLength : ℚ))

/-- mal_resampler_get_cached_input_time (state-passing form; reads fields
only, never calls the client). -/
def mal_resampler_get_cached_input_time (r : Resampler) : ℚ × Resampler × ℕ :=
  (mal_resampler__calculate_cached_input_time r, r, 0)

/-- mal_resampler__calculate_cached_output_time: cached input time divided by
the current ratio. -/
def mal_resampler__calculate_cached_output_time (r : Resampler) : ℚ :=
  mal_resampler__calculate_cached_input_time r / r.config.ratio

/-- mal_resampler_get_cached_output_time (state-passing form). -/
def mal_resampler_get_cached_output_time (r : Resampler) : ℚ × Resampler × ℕ :=
  (mal_resampler__calculate_cached_output_time r, r, 0)

/-- mal_resampler_get_cached_input_frame_count:
(mal_uint64)ceil(mal_resampler_get_cached_input_time(pResampler)). The C cast
from double to mal_uint64 is modelled by Int.toNat; the cast is only defined
in C for nonnegative values, which is where the theorems below use it. -/
def mal_resampler_get_cached_input_frame_count (r : Resampler) : ℕ × Resampler × ℕ :=
  ((⌈(mal_resampler_get_cached_input_time r).1⌉).toNat, r, 0)

/-- mal_resampler_get_cached_output_frame_count:
(mal_uint64)floor(mal_resampler_get_cached_output_time(pResampler)). -/
def mal_resampler_get_cached_output_frame_count (r : Resampler) : ℕ × Resampler × ℕ :=
  ((⌊(mal_resampler_get_cached_output_time r).1⌋).toNat, r, 0)

/-- mal_resampler_get_required_input_frame_count. -/
def mal_resampler_get_required_input_frame_count (r : Resampler) (outputFrameCount : ℕ) :
    ℕ × Resampler × ℕ :=
  if outputFrameCount = 0 then
    (0, r, 0)
  else if (outputFrameCount : ℚ) ≤ mal_resampler__calculate_cached_output_time r then
    (0, r, 0)
  else
    ((⌈((outputFrameCount : ℚ) - mal_resampler__calculate_cached_output_time r) *
        r.config.ratio⌉).toNat, r, 0)

/-- mal_resampler_get_expected_output_frame_count. -/
def mal_resampler_get_expected_output_frame_count (r : Resampler) (inputFrameCount : ℕ) :
    ℕ × Resampler × ℕ :=
  if inputFrameCount = 0 then
    (0, r, 0)
  else
    ((⌊(mal_resampler__calculate_cached_input_time r + (inputFrameCount : ℚ)) / r.config.ratio⌋).toNat,
      r, 0)

/-- The reserved part of the window in the cached input time computation:
windowLength >> 1 under consume mode, the whole windowLength under no_consume
mode (the branch structure of mal_resampler__calculate_cached_input_time). -/
def window_reserved (r : Resampler) : ℚ :=
  match r.config.endOfInputMode with
  | .consume => ((r.windowLength / 2 : ℕ) : ℚ)
  | .no_consume => (r.windowLength : ℚ)

lemma calculate_cached_input_time_eq (r : Resampler) :
    mal_resampler__calculate_cached_input_time r =
      (r.cacheLengthInFrames : ℚ) - (r.windowTime + window_reserved r) := by
  unfold mal_resampler__calculate_cached_input_time window_reserved
  cases r.config.endOfInputMode <;> rfl

/-- A representative fully initialized engine: f32, mono, 48000 to 48000,
ratio 1, linear algorithm, consume mode, client callback present, empty
cache. -/
def base_config : MalResamplerConfig :=
  { format := .mal_format_f32
    channels := 1
    sampleRateIn := 48000
    sampleRateOut := 48000
    ratio := 1
    algorithm := .mal_resampler_algorithm_linear
    endOfInputMode := .consume
    onRead := true }

/-- Engine state built from base_config with the backend selected. -/
def base_engine : Resampler :=
  { cache := []
    firstCachedFrameOffset := 0
    cacheLengthInFrames := 0
    windowLength := 0
    windowTime := 0
    config := base_config
    hasBackend := true }

/-- Engine whose window extends past the cached region: 2 cached frames but a
window of 6 frames starting at windowTime 0. -/
def neg_time_engine : Resampler :=
  { base_engine with cacheLengthInFrames := 2, windowLength := 6 }

/-- Engine whose reserved window lies inside the cached region. -/
def window_engine : Resampler :=
  { base_engine with cacheLengthInFrames := 4, windowTime := 1, windowLength := 2 }

/-- Engine with 5 cached frames, no window, ratio 1. -/
def cached_engine : Resampler :=
  { base_engine with cacheLengthInFrames := 5 }

/-- Engine with 2 cached frames and ratio 2, so one output frame is cached. -/
def req_engine : Resampler :=
  { base_engine with cacheLengthInFrames := 2, config := { base_config with ratio := 2 } }

lemma calc_in_neg_time_engine :
    mal_resampler__calculate_cached_input_time neg_time_engine = -1 := by
  show ((2 : ℕ) : ℚ) - ((0 : ℚ) + (((6 : ℕ) / 2 : ℕ) : ℚ)) = -1
  norm_num

lemma calc_in_window_engine :
    mal_resampler__calculate_cached_input_time window_engine = 2 := by
  show ((4 : ℕ) : ℚ) - ((1 : ℚ) + (((2 : ℕ) / 2 : ℕ) : ℚ)) = 2
  norm_num

lemma calc_in_cached_engine :
    mal_resampler__calculate_cached_input_time cached_engine = 5 := by
  show ((5 : ℕ) : ℚ) - ((0 : ℚ) + (((0 : ℕ) / 2 : ℕ) : ℚ)) = 5
  norm_num

lemma calc_in_req_engine :
    mal_resampler__calculate_cached_input_time req_engine = 2 := by
  show ((2 : ℕ) : ℚ) - ((0 : ℚ) + (((0 : ℕ) / 2 : ℕ) : ℚ)) = 2
  norm_num

lemma calc_out_req_engine :
    mal_resampler__calculate_cached_output_time req_engine = 1 := by
  show mal_resampler__calculate_cached_input_time req_engine / (2 : ℚ) = 1
  rw [calc_in_req_engine]
  norm_num

/-- C1: the claim says mal_resampler_set_rate validates and stores the ratio
computed from the newly supplied rates. The source instead computes it from
the rates already stored in config (line 311). On an engine whose stored
rates are 48000/48000, set_rate(48000, 1) succeeds and stores ratio 1, even
though the ratio of the new rates, 48000, exceeds the maximum allowed ratio
and the claim requires the call to fail. -/
theorem set_rate_validates_stale_rates :
    mal_resampler_set_rate base_engine 48000 1 =
      (.MAL_SUCCESS,
        { base_engine with config :=
          { base_engine.config with sampleRateIn := 48000, sampleRateOut := 1, ratio := 1 } })
    ∧ mal_resampler_max_ratio < (48000 : ℚ) / (1 : ℚ) := by
  constructor
  · simp only [mal_resampler_set_rate, base_engine, base_config]
    norm_num [mal_resampler_min_ratio, mal_resampler_max_ratio]
  · norm_num [mal_resampler_max_ratio]

/-- C2: the claim says mal_resampler_init rejects any configuration whose
ratio (explicit, or derived from the rates) lies outside the permitted
bounds. The source performs no bounds check at construction: it accepts an
explicit ratio of 1000 and a derived ratio of 48000/1 = 48000, both far above
mal_resampler_max_ratio, returning MAL_SUCCESS with the out-of-range ratio
stored. -/
theorem init_accepts_out_of_range_ratio :
    (mal_resampler_init { base_config with ratio := 1000 }).1 = .MAL_SUCCESS
    ∧ (mal_resampler_init { base_config with ratio := 1000 }).2.config.ratio = 1000
    ∧ (mal_resampler_init
        { base_config with sampleRateIn := 48000, sampleRateOut := 1, ratio := 0 }).1 = .MAL_SUCCESS
    ∧ (mal_resampler_init
        { base_config with sampleRateIn := 48000, sampleRateOut := 1, ratio := 0 }).2.config.ratio =
        ((48000 : ℕ) : ℚ) / ((1 : ℕ) : ℚ)
    ∧ mal_resampler_max_ratio < (1000 : ℚ)
    ∧ mal_resampler_max_ratio < ((48000 : ℕ) : ℚ) / ((1 : ℕ) : ℚ) := by
  refine ⟨rfl, rfl, rfl, rfl, ?_, ?_⟩ <;> norm_num [mal_resampler_max_ratio]

/-- C3 counterexample: this engine satisfies the invariants listed in the
claim (cache length within capacity, windowTime nonnegative and within the
cached region), yet get_cached_input_time reports a negative value, because
the reserved half-window (3 frames) extends past the 2 cached frames. -/
theorem cached_input_time_negative_example :
    neg_time_engine.cacheLengthInFrames ≤ cache_capacity_in_frames neg_time_engine
    ∧ 0 ≤ neg_time_engine.windowTime
    ∧ neg_time_engine.windowTime ≤ (neg_time_engine.cacheLengthInFrames : ℚ)
    ∧ (mal_resampler_get_cached_input_time neg_time_engine).1 < 0 := by
  refine ⟨by decide, le_rfl, ?_, ?_⟩
  · show (0 : ℚ) ≤ ((2 : ℕ) : ℚ)
    norm_num
  · show mal_resampler__calculate_cached_input_time neg_time_engine < 0
    rw [calc_in_neg_time_engine]
    norm_num

/-- C3 (amended): when additionally the reserved part of the window
(windowLength >> 1 under consume mode, windowLength under no_consume mode)
fits inside the cached region beyond windowTime, get_cached_input_time is
nonnegative. -/
theorem cached_input_time_nonneg (r : Resampler)
    (h : r.windowTime + window_reserved r ≤ (r.cacheLengthInFrames : ℚ)) :
    0 ≤ (mal_resampler_get_cached_input_time r).1 := by
  unfold mal_resampler_get_cached_input_time
  dsimp only
  rw [calculate_cached_input_time_eq]
  linarith

/-- Witness for the amended C3 theorem at a concrete engine. -/
theorem cached_input_time_nonneg_witness :
    0 ≤ (mal_resampler_get_cached_input_time window_engine).1 :=
  cached_input_time_nonneg window_engine
    (by show (1 : ℚ) + (((2 : ℕ) / 2 : ℕ) : ℚ) ≤ ((4 : ℕ) : ℚ); norm_num)

/-- C4 counterexample: the claim asserts the floor formula for every
inputFrameCount including 0, but at inputFrameCount = 0 the source returns 0
unconditionally, while floor((cachedInputTime + 0) / ratio) is 5 on an engine
with 5 cached frames and ratio 1. -/
theorem expected_output_zero_input_example :
    (mal_resampler_get_expected_output_frame_count cached_engine 0).1 = 0
    ∧ ⌊((mal_resampler_get_cached_input_time cached_engine).1 + ((0 : ℕ) : ℚ)) /
        cached_engine.config.ratio⌋ = 5 := by
  constructor
  · rfl
  · show ⌊(mal_resampler__calculate_cached_input_time cached_engine + ((0 : ℕ) : ℚ)) /
        cached_engine.config.ratio⌋ = 5
    rw [calc_in_cached_engine]
    show ⌊((5 : ℚ) + ((0 : ℕ) : ℚ)) / (1 : ℚ)⌋ = 5
    norm_num

/-- C4 (amended): at inputFrameCount = 0 the function returns 0 regardless of
the cache; for inputFrameCount ≥ 1, with the ratio positive and the combined
cached-plus-supplied input time nonnegative (both §3 data-model invariants),
it returns floor((cachedInputTime + inputFrameCount) / ratio). -/
theorem expected_output_frame_count_spec (r : Resampler) (n : ℕ)
    (hr : 0 < r.config.ratio)
    (hnn : 0 ≤ (mal_resampler_get_cached_input_time r).1 + (n : ℚ)) :
    (mal_resampler_get_expected_output_frame_count r 0).1 = 0
    ∧ (1 ≤ n →
        ((mal_resampler_get_expected_output_frame_count r n).1 : ℤ) =
          ⌊((mal_resampler_get_cached_input_time r).1 + (n : ℚ)) / r.config.ratio⌋) := by
  constructor
  · rfl
  · intro hn
    unfold mal_resampler_get_expected_output_frame_count
    rw [if_neg (by omega)]
    unfold mal_resampler_get_cached_input_time at hnn ⊢
    have h0 : 0 ≤ (mal_resampler__calculate_cached_input_time r + (n : ℚ)) / r.config.ratio :=
      div_nonneg hnn hr.le
    exact Int.toNat_of_nonneg (Int.floor_nonneg.mpr h0)

/-- Witness for the amended C4 theorem at a concrete engine and input count. -/
theorem expected_output_frame_count_spec_witness :
    (mal_resampler_get_expected_output_frame_count cached_engine 0).1 = 0
    ∧ ((mal_resampler_get_expected_output_frame_count cached_engine 3).1 : ℤ) =
        ⌊((mal_resampler_get_cached_input_time cached_engine).1 + ((3 : ℕ) : ℚ)) /
          cached_engine.config.ratio⌋ :=
  by
  have hr : 0 < cached_engine.config.ratio := by
    show (0 : ℚ) < 1
    norm_num
  have hnn : 0 ≤ (mal_resampler_get_cached_input_time cached_engine).1 + ((3 : ℕ) : ℚ) := by
    show 0 ≤ mal_resampler__calculate_cached_input_time cached_engine + ((3 : ℕ) : ℚ)
    rw [calc_in_cached_engine]
    norm_num
  have h := expected_output_frame_count_spec cached_engine 3 hr hnn
  exact ⟨h.1, h.2 (by norm_num)⟩

/-- C5: reading with a NULL output buffer is the identical operation to
seeking with options 0: same returned frame count, same resulting engine
state (cache contents and windowTime included), same number of frames pulled
from the client. -/
theorem read_null_equals_seek (r : Resampler) (frameCount : ℕ) :
    mal_resampler_read r frameCount none = mal_resampler_seek r frameCount 0 := by
  unfold mal_resampler_read mal_resampler_seek
  split_ifs <;> rfl

/-- C6: get_required_input_frame_count returns 0 exactly when the cached
output time already covers the request, and otherwise returns the ceiling of
(outputFrameCount - cachedOutputTime) * ratio, which is strictly positive in
that branch. Hypotheses are §3 data-model invariants: ratio positive and
cached output time nonnegative. -/
theorem required_input_frame_count_spec (r : Resampler) (outputFrameCount : ℕ)
    (hr : 0 < r.config.ratio)
    (hc : 0 ≤ (mal_resampler_get_cached_output_time r).1) :
    (((outputFrameCount : ℕ) : ℚ) ≤ (mal_resampler_get_cached_output_time r).1 →
      (mal_resampler_get_required_input_frame_count r outputFrameCount).1 = 0)
    ∧ ((mal_resampler_get_cached_output_time r).1 < ((outputFrameCount : ℕ) : ℚ) →
      ((mal_resampler_get_required_input_frame_count r outputFrameCount).1 : ℤ) =
        ⌈(((outputFrameCount : ℕ) : ℚ) - (mal_resampler_get_cached_output_time r).1) *
          r.config.ratio⌉
      ∧ 0 < (mal_resampler_get_required_input_frame_count r outputFrameCount).1) := by
  unfold mal_resampler_get_cached_output_time at hc ⊢
  constructor
  · intro hcov
    unfold mal_resampler_get_required_input_frame_count
    split_ifs with h1
    · rfl
    · rfl
  · intro hlt
    have hn : outputFrameCount ≠ 0 := by
      intro h0
      rw [h0] at hlt
      push_cast at hlt
      linarith
    unfold mal_resampler_get_required_input_frame_count
    rw [if_neg hn, if_neg (not_le.mpr hlt)]
    have hpos :
        0 < (((outputFrameCount : ℕ) : ℚ) - mal_resampler__calculate_cached_output_time r) *
          r.config.ratio :=
      mul_pos (by linarith) hr
    have hceil :
        0 < ⌈(((outputFrameCount : ℕ) : ℚ) - mal_resampler__calculate_cached_output_time r) *
          r.config.ratio⌉ :=
      Int.ceil_pos.mpr hpos
    refine ⟨Int.toNat_of_nonneg hceil.le, ?_⟩
    omega

/-- Witness for the C6 theorem: with one output frame cached, a request for 1
frame is covered and costs 0 extra input; a request for 3 frames costs
ceil((3 - 1) * 2) = 4 extra input frames, which is positive. -/
theorem required_input_frame_count_spec_witness :
    (mal_resampler_get_required_input_frame_count req_engine 1).1 = 0
    ∧ ((mal_resampler_get_required_input_frame_count req_engine 3).1 : ℤ) =
        ⌈(((3 : ℕ) : ℚ) - (mal_resampler_get_cached_output_time req_engine).1) *
          req_engine.config.ratio⌉
    ∧ 0 < (mal_resampler_get_required_input_frame_count req_engine 3).1 :=
  by
  have hr : 0 < req_engine.config.ratio := by
    show (0 : ℚ) < 2
    norm_num
  have hc : 0 ≤ (mal_resampler_get_cached_output_time req_engine).1 := by
    show 0 ≤ mal_resampler__calculate_cached_output_time req_engine
    rw [calc_out_req_engine]
    norm_num
  have hcov : ((1 : ℕ) : ℚ) ≤ (mal_resampler_get_cached_output_time req_engine).1 := by
    show ((1 : ℕ) : ℚ) ≤ mal_resampler__calculate_cached_output_time req_engine
    rw [calc_out_req_engine]
    norm_num
  have hlt : (mal_resampler_get_cached_output_time req_engine).1 < ((3 : ℕ) : ℚ) := by
    show mal_resampler__calculate_cached_output_time req_engine < ((3 : ℕ) : ℚ)
    rw [calc_out_req_engine]
    norm_num
  have h3 := (required_input_frame_count_spec req_engine 3 hr hc).2 hlt
  exact ⟨(required_input_frame_count_spec req_engine 1 hr hc).1 hcov, h3.1, h3.2⟩

/-- C7: the cached input frame count is the ceiling of the cached input time,
the cached output frame count is the floor of the cached output time, and the
cached output time is the cached input time divided by the current ratio.
Hypotheses are §3 data-model invariants: ratio positive and cached input time
nonnegative (so the C double-to-uint64 casts are defined). -/
theorem query_consistency (r : Resampler)
    (hr : 0 < r.config.ratio)
    (hin : 0 ≤ (mal_resampler_get_cached_input_time r).1) :
    ((mal_resampler_get_cached_input_frame_count r).1 : ℤ) =
      ⌈(mal_resampler_get_cached_input_time r).1⌉
    ∧ ((mal_resampler_get_cached_output_frame_count r).1 : ℤ) =
      ⌊(mal_resampler_get_cached_output_time r).1⌋
    ∧ (mal_resampler_get_cached_output_time r).1 =
      (mal_resampler_get_cached_input_time r).1 / r.config.ratio := by
  refine ⟨?_, ?_, rfl⟩
  · exact Int.toNat_of_nonneg (Int.ceil_nonneg hin)
  · have hout : 0 ≤ (mal_resampler_get_cached_output_time r).1 := div_nonneg hin hr.le
    exact Int.toNat_of_nonneg (Int.floor_nonneg.mpr hout)

/-- Witness for the C7 theorem at a concrete engine with 2 frames of cached
input time and ratio 1. -/
theorem query_consistency_witness :
    ((mal_resampler_get_cached_input_frame_count window_engine).1 : ℤ) =
      ⌈(mal_resampler_get_cached_input_time window_engine).1⌉
    ∧ ((mal_resampler_get_cached_output_frame_count window_engine).1 : ℤ) =
      ⌊(mal_resampler_get_cached_output_time window_engine).1⌋
    ∧ (mal_resampler_get_cached_output_time window_engine).1 =
      (mal_resampler_get_cached_input_time window_engine).1 / window_engine.config.ratio :=
  query_consistency window_engine
    (by show (0 : ℚ) < 1; norm_num)
    (by show (0 : ℚ) ≤ mal_resampler__calculate_cached_input_time window_engine
        rw [calc_in_window_engine]
        norm_num)

/-- C8: set_rate_ratio fails on any ratio outside the permitted bounds and
leaves the whole engine unchanged; on any ratio inside the bounds it succeeds
and stores exactly that ratio, touching nothing else. -/
theorem set_rate_ratio_spec (r : Resampler) (ratio : ℚ) :
    ((ratio < mal_resampler_min_ratio ∨ mal_resampler_max_ratio < ratio) →
      mal_resampler_set_rate_ratio r ratio = (.MAL_INVALID_ARGS, r))
    ∧ (mal_resampler_min_ratio ≤ ratio → ratio ≤ mal_resampler_max_ratio →
      mal_resampler_set_rate_ratio r ratio =
        (.MAL_SUCCESS, { r with config := { r.config with ratio := ratio } })) := by
  constructor
  · intro h
    unfold mal_resampler_set_rate_ratio
    rw [if_pos h]
  · intro h1 h2
    unfold mal_resampler_set_rate_ratio
    rw [if_neg (by push_neg; exact ⟨h1, h2⟩)]

/-- Witness for the C8 theorem: ratio 1000 is rejected with the engine
unchanged, ratio 2 is accepted and stored exactly. -/
theorem set_rate_ratio_spec_witness :
    mal_resampler_set_rate_ratio base_engine 1000 = (.MAL_INVALID_ARGS, base_engine)
    ∧ mal_resampler_set_rate_ratio base_engine 2 =
        (.MAL_SUCCESS, { base_engine with config := { base_engine.config with ratio := 2 } }) :=
  ⟨(set_rate_ratio_spec base_engine 1000).1
      (by norm_num [mal_resampler_min_ratio, mal_resampler_max_ratio]),
   (set_rate_ratio_spec base_engine 2).2
      (by norm_num [mal_resampler_min_ratio])
      (by norm_num [mal_resampler_max_ratio])⟩

/-- C9: read and seek with frameCount 0 return 0 immediately, leave the
engine state untouched and pull 0 frames from the client callback. -/
theorem read_seek_zero_frame_count (r : Resampler) (ppFrames : Option Unit) (options : ℕ) :
    mal_resampler_read r 0 ppFrames = (0, r, 0)
    ∧ mal_resampler_seek r 0 options = (0, r, 0) := by
  constructor
  · unfold mal_resampler_read
    split_ifs with h1 h2
    · rfl
    · rfl
    · exact absurd rfl h2
  · unfold mal_resampler_seek
    split_ifs with h1 h2
    · rfl
    · rfl
    · exact absurd rfl h2

/-- C10: the six query operations leave the engine state (cache contents,
offsets, window fields and config included) unchanged and pull 0 frames from
the client callback, for every engine and every argument. -/
theorem queries_leave_state_unchanged (r : Resampler) (n m : ℕ) :
    (mal_resampler_get_cached_input_frame_count r).2 = (r, 0)
    ∧ (mal_resampler_get_cached_output_frame_count r).2 = (r, 0)
    ∧ (mal_resampler_get_cached_input_time r).2 = (r, 0)
    ∧ (mal_resampler_get_cached_output_time r).2 = (r, 0)
    ∧ (mal_resampler_get_required_input_frame_count r n).2 = (r, 0)
    ∧ (mal_resampler_get_expected_output_frame_count r m).2 = (r, 0) := by
  refine ⟨rfl, rfl, rfl, rfl, ?_, ?_⟩
  · unfold mal_resampler_get_required_input_frame_count
    split_ifs <;> rfl
  · unfold mal_resampler_get_expected_output_frame_count
    split_ifs <;> rfl

end MalResampler
